import Mathlib

/-!
Shallow embedding of the webhook core of the Slack flows app
(request verification, event classification and routing,
correlation lookup, passive-subscription fan-out), translated from
`httpHandlerHelpers.ts`, the `http.onRequest` handler of the app, and
`blocks/subscriptions.ts`.

JavaScript conventions used throughout the embedding:
an absent object property is `Option.none`; the string-truthiness
test `if (x)` on a possibly-absent string is `strTruthy` (false for
`undefined` and for `""`); `a || b` on strings is `jsOrS`; a thrown
exception is an `Except.error`.
-/

namespace SlackApp

/-- JS truthiness of a possibly-absent string: `undefined` and `""` are falsy. -/
def strTruthy : Option String → Bool
  | none => false
  | some s => s != ""

/-- JS `a || b` on possibly-absent strings: yields `a` when `a` is truthy, else `b`. -/
def jsOrS (a b : Option String) : Option String :=
  if strTruthy a then a else b

/-- JS truthiness of a possibly-absent boolean: `undefined` and `false` are falsy. -/
def optBoolTruthy : Option Bool → Bool
  | none => false
  | some b => b

/-- Value of a list of decimal digit characters, most significant first. -/
def digitsVal (cs : List Char) : Nat :=
  cs.foldl (fun acc c => acc * 10 + (c.toNat - 48)) 0

/-- Leading decimal digits of a character list, as a number; `none` when there is
no leading digit (JS `NaN`). -/
def leadingDigits (cs : List Char) : Option Nat :=
  let ds := cs.takeWhile Char.isDigit
  if ds.isEmpty then none else some (digitsVal ds)

/-- JS `parseInt(s, 10)`: skip leading whitespace, read an optional sign and then
the longest run of decimal digits; `none` models `NaN`. -/
def parseIntJs (s : String) : Option Int :=
  let cs := s.data.dropWhile (fun c => c == ' ' || c == '\t' || c == '\n' || c == '\r')
  match cs with
  | '-' :: rest => (leadingDigits rest).map (fun n => -(n : Int))
  | '+' :: rest => (leadingDigits rest).map (fun n => (n : Int))
  | _ => (leadingDigits cs).map (fun n => (n : Int))

/-- UTF-8 encoding of one character, as byte values (model of `TextEncoder`). -/
def utf8EncodeChar (c : Char) : List Nat :=
  let n := c.toNat
  if n < 0x80 then [n]
  else if n < 0x800 then [0xC0 + n / 64, 0x80 + n % 64]
  else if n < 0x10000 then [0xE0 + n / 4096, 0x80 + (n / 64) % 64, 0x80 + n % 64]
  else [0xF0 + n / 262144, 0x80 + (n / 4096) % 64, 0x80 + (n / 64) % 64, 0x80 + n % 64]

/-- UTF-8 encoding of a string as a byte list (model of `new TextEncoder().encode`). -/
def encode (s : String) : List Nat :=
  (s.data.map utf8EncodeChar).flatten

/-- One byte rendered as lowercase hex, padded to two digits
(model of `b.toString(16).padStart(2, "0")`). -/
def toHexPad2 (b : Nat) : String :=
  let s := String.mk (Nat.toDigits 16 b)
  if s.length < 2 then "0" ++ s else s

/-- Hex rendering of a byte list (model of `Array.from(mac).map(hex).join("")`). -/
def hexOfBytes (bytes : List Nat) : String :=
  String.join (bytes.map toHexPad2)

/-- Model of `timingSafeEqual` from `node:crypto`: throws (`Except.error`) when the
two buffers have different byte lengths, otherwise reports byte-wise equality. -/
def timingSafeEqual (a b : List Nat) : Except String Bool :=
  if a.length = b.length then Except.ok (a == b)
  else Except.error "Input buffers must have the same byte length"

/-- The expected signature string computed by `verifySlackRequest`:
`"v0=" + hex(HMAC-SHA256(signingSecret, "v0:" + timestamp + ":" + body))`.
The HMAC primitive itself (`crypto.subtle.sign("HMAC", ...)`) is an abstract
byte-level parameter `hmac`. -/
def computeMySignature (hmac : List Nat → List Nat → List Nat)
    (signingSecret timestamp body : String) : String :=
  "v0=" ++ hexOfBytes (hmac (encode signingSecret) (encode ("v0:" ++ timestamp ++ ":" ++ body)))

/-- The `try` block of `verifySlackRequest`: compute the expected signature and
compare it to the supplied one with `timingSafeEqual`; an `Except.error` is the
exception path caught by the surrounding `catch`. -/
def verifySignatureCheck (hmac : List Nat → List Nat → List Nat)
    (signingSecret timestamp body signature : String) : Except String Bool :=
  timingSafeEqual (encode (computeMySignature hmac signingSecret timestamp body))
    (encode signature)

/-- The `payload.container` object, of which only `.message_ts` is read. -/
structure Container where
  message_ts : Option String
deriving Repr, DecidableEq

/-- The `payload.message` object, of which only `.ts` is read. -/
structure MessageRef where
  ts : Option String
deriving Repr, DecidableEq

/-- The `payload.view` object, of which only `.id` is read. -/
structure ViewRef where
  id : Option String
deriving Repr, DecidableEq

/-- Fields of an interactivity payload that the handler reads. -/
structure InteractionPayload where
  type : Option String
  container : Option Container
  message : Option MessageRef
  message_ts : Option String
  view : Option ViewRef
deriving Repr, DecidableEq

/-- Fields of a Slack event object that the passive-subscription path reads. -/
structure SlackEvent where
  type : Option String
  channel : Option String
  user : Option String
deriving Repr, DecidableEq

/-- Fields of a `/events` JSON body that `handleEventsEndpoint` reads; `event`
is `none` when the property is absent (`payload.event === undefined`). -/
structure EventsPayload where
  type : Option String
  challenge : Option String
  event : Option SlackEvent
deriving Repr, DecidableEq

/-- Inbound HTTP request as seen by the app: the two Slack headers
(`headers["X-Slack-Request-Timestamp"]`, `headers["X-Slack-Signature"]`), the
raw body (used for signing), the request path, and the platform-parsed bodies
for the two endpoints (`eventsBody` is the parsed JSON body used on `/events`;
`interactivityPayload` is the result of `JSON.parse(body.payload)` on
`/interactivity`, `none` when that parse would throw). -/
structure HTTPRequest where
  timestampHeader : Option String
  signatureHeader : Option String
  rawBody : String
  path : String
  eventsBody : EventsPayload
  interactivityPayload : Option InteractionPayload

/-- Translation of `verifySlackRequest(request, signingSecret)`:
reject on a falsy header, reject a timestamp that is `NaN` or more than 300
seconds from `now`, then compare the computed `v0=<hex hmac>` signature to the
supplied one; an exception inside the `try` block yields `false`. -/
def verifySlackRequest (hmac : List Nat → List Nat → List Nat) (now : Int)
    (request : HTTPRequest) (signingSecret : String) : Bool :=
  match request.timestampHeader, request.signatureHeader with
  | some timestamp, some signature =>
    if timestamp == "" || signature == "" then false
    else
      match parseIntJs timestamp with
      | none => false
      | some requestTimestampSeconds =>
        if (now - requestTimestampSeconds).natAbs > 300 then false
        else
          match verifySignatureCheck hmac signingSecret timestamp request.rawBody signature with
          | Except.ok b => b
          | Except.error _ => false
  | _, _ => false

/-- A correlation record as stored in the app KV store under `interaction:{ts}`
or `view:{id}`: the subscriber block and the originating event id. -/
structure InteractionData where
  blockId : String
  originalEventId : String
deriving Repr, DecidableEq

/-- The app KV store restricted to correlation records; `none` models both an
absent key and a stored entry without a `value`. -/
abbrev KvStore := String → Option InteractionData

/-- Body of a `messaging.sendToBlocks` call made by the interactivity handler:
`{ type, payload, originalEventId }`. -/
structure DispatchBody where
  type : String
  payload : InteractionPayload
  originalEventId : String
deriving Repr, DecidableEq

/-- One `messaging.sendToBlocks` call made by the interactivity handler. -/
structure Dispatch where
  blockIds : List String
  body : DispatchBody
deriving Repr, DecidableEq

/-- Result of `handleInteractivityEndpoint`: the HTTP status, the list of
`sendToBlocks` calls performed (in order), and the KV store after the handler
ran (the handler only issues `kv.app.get`, so every branch returns the store
it was given). -/
structure HIResult where
  statusCode : Nat
  dispatches : List Dispatch
  kv : KvStore

/-- The message-timestamp extraction
`payload.container?.message_ts || payload.message?.ts || payload.message_ts`. -/
def extractMessageTs (p : InteractionPayload) : Option String :=
  jsOrS (jsOrS (p.container.bind Container.message_ts) (p.message.bind MessageRef.ts))
    p.message_ts

/-- Translation of `handleInteractivityEndpoint(payload)` together with its
`kv.app.get` reads: view interactions look up `view:{viewId}`, message
interactions look up `interaction:{messageTs}`; a hit dispatches to exactly
the stored block, a miss (or an unextractable id, or an unknown payload type)
only logs; every branch answers 200. -/
def handleInteractivityEndpoint (p : InteractionPayload) (kv : KvStore) : HIResult :=
  if p.type == some "interactive_message" || p.type == some "block_actions" ||
      p.type == some "view_submission" || p.type == some "view_closed" then
    if p.type == some "view_submission" || p.type == some "view_closed" then
      match p.view.bind ViewRef.id with
      | some viewId =>
        if viewId == "" then ⟨200, [], kv⟩
        else
          match kv ("view:" ++ viewId) with
          | some d => ⟨200, [⟨[d.blockId], ⟨"slack_view_interaction", p, d.originalEventId⟩⟩], kv⟩
          | none => ⟨200, [], kv⟩
      | none => ⟨200, [], kv⟩
    else
      match extractMessageTs p with
      | some messageTs =>
        if messageTs == "" then ⟨200, [], kv⟩
        else
          match kv ("interaction:" ++ messageTs) with
          | some d => ⟨200, [⟨[d.blockId], ⟨"slack_interaction", p, d.originalEventId⟩⟩], kv⟩
          | none => ⟨200, [], kv⟩
      | none => ⟨200, [], kv⟩
  else ⟨200, [], kv⟩

/-- A configured block as returned by `blocks.list`: its id, its type id, and
the config fields the subscription paths read. -/
structure BlockInfo where
  id : String
  typeId : String
  channelId : Option String
  includeOwnMessages : Option Bool
deriving Repr, DecidableEq

/-- One `messaging.sendToBlocks` call made by the passive-subscription path:
the target block ids and the full Slack event sent as the body. -/
structure SentMessage where
  blockIds : List String
  body : SlackEvent
deriving Repr, DecidableEq

/-- Translation of `handleEventSubscriptions(event)`: `blocks.list({typeIds})`
is a filter of the configured-block registry by type id; mention and message
events are further narrowed by the configured `channelId` of each block
(`!configuredChannelId || configuredChannelId === event.channel`); a non-empty
remainder receives one fan-out send. -/
def handleEventSubscriptions (registry : List BlockInfo) (event : SlackEvent) :
    List SentMessage :=
  if event.type == some "app_mention" then
    let mentionSubscriptionBlocks :=
      registry.filter (fun b => ["appMentionSubscription", "conversation"].contains b.typeId)
    let relevantBlocks := mentionSubscriptionBlocks.filter
      (fun b => !(strTruthy b.channelId) || b.channelId == event.channel)
    if relevantBlocks.length > 0 then [⟨relevantBlocks.map BlockInfo.id, event⟩] else []
  else if event.type == some "reaction_added" || event.type == some "reaction_removed" then
    let reactionSubscriptionBlocks :=
      registry.filter (fun b => ["reactionsSubscription"].contains b.typeId)
    if reactionSubscriptionBlocks.length > 0 then
      [⟨reactionSubscriptionBlocks.map BlockInfo.id, event⟩]
    else []
  else if event.type == some "message" then
    let messageSubscriptionBlocks :=
      registry.filter
        (fun b => ["messagesSubscription", "conversation", "botThread"].contains b.typeId)
    let relevantBlocks := messageSubscriptionBlocks.filter
      (fun b => !(strTruthy b.channelId) || b.channelId == event.channel)
    if relevantBlocks.length > 0 then [⟨relevantBlocks.map BlockInfo.id, event⟩] else []
  else []

/-- Translation of `messagesSubscription.onInternalMessage`: emits the Slack
event (`some ev`) unless the body is not a message event, the configured
channel differs, or the event is an own message of the app and
`includeOwnMessages` is falsy.  `appUserId` is `app.signals.userId`. -/
def messagesSubscription_onInternalMessage (appUserId : Option String)
    (blockChannelId : Option String) (includeOwnMessages : Option Bool)
    (body : Option SlackEvent) : Option SlackEvent :=
  match body with
  | some slackEvent =>
    if slackEvent.type == some "message" then
      if strTruthy blockChannelId && !(slackEvent.channel == blockChannelId) then none
      else if appUserId == slackEvent.user && !(optBoolTruthy includeOwnMessages) then none
      else some slackEvent
    else none
  | none => none

/-- Body of an HTTP response issued via `http.respond`. -/
inductive RespBody where
  | empty : RespBody
  | text (s : String) : RespBody
  | errorJson (msg : String) : RespBody
deriving Repr, DecidableEq

/-- Result of `handleEventsEndpoint`: status, body, and the fan-out sends. -/
structure EventsResult where
  statusCode : Nat
  body : RespBody
  sends : List SentMessage
deriving Repr, DecidableEq

/-- Translation of `handleEventsEndpoint(payload)`: echo the challenge on
`url_verification`; run the passive-subscription fan-out on `event_callback`
(accessing `event.type` throws when `payload.event` is absent, the
`Except.error` case); answer 200 with no action on anything else. -/
def handleEventsEndpoint (registry : List BlockInfo) (payload : EventsPayload) :
    Except String EventsResult :=
  if payload.type == some "url_verification" then
    Except.ok ⟨200, match payload.challenge with
      | some c => RespBody.text c
      | none => RespBody.empty, []⟩
  else if payload.type == some "event_callback" then
    match payload.event with
    | some event => Except.ok ⟨200, RespBody.empty, handleEventSubscriptions registry event⟩
    | none => Except.error "TypeError: event is undefined"
  else Except.ok ⟨200, RespBody.empty, []⟩

/-- App config fields read by the HTTP handler. -/
structure AppConfig where
  slackSigningSecret : Option String

/-- Outcome of one `app.http.onRequest` invocation: the `http.respond` call
(status and body), the passive-event sends, the interaction dispatches, and
the KV store afterwards. -/
structure RequestOutcome where
  statusCode : Nat
  body : RespBody
  eventSends : List SentMessage
  interactionSends : List Dispatch
  kv : KvStore

/-- Translation of `app.http.onRequest`: a falsy signing secret answers 500
before verification is ever consulted; a failed verification answers 403; then
the path picks the events endpoint, the interactivity endpoint
(`JSON.parse(body.payload)` throwing is the `Except.error` case), or 404. -/
def app_http_onRequest (hmac : List Nat → List Nat → List Nat) (now : Int)
    (cfg : AppConfig) (registry : List BlockInfo) (kv : KvStore)
    (request : HTTPRequest) : Except String RequestOutcome :=
  if !(strTruthy cfg.slackSigningSecret) then
    Except.ok ⟨500, RespBody.errorJson "App not configured: Missing Signing Secret", [], [], kv⟩
  else if !(verifySlackRequest hmac now request (cfg.slackSigningSecret.getD "")) then
    Except.ok ⟨403, RespBody.errorJson "Invalid Slack signature", [], [], kv⟩
  else if request.path == "/events" || request.path.endsWith "/events" then
    match handleEventsEndpoint registry request.eventsBody with
    | Except.ok r => Except.ok ⟨r.statusCode, r.body, r.sends, [], kv⟩
    | Except.error e => Except.error e
  else if request.path == "/interactivity" || request.path.endsWith "/interactivity" then
    match request.interactivityPayload with
    | some payload =>
      let r := handleInteractivityEndpoint payload kv
      Except.ok ⟨r.statusCode, RespBody.empty, [], r.dispatches, r.kv⟩
    | none => Except.error "SyntaxError: unexpected token in JSON"
  else
    Except.ok ⟨404, RespBody.errorJson "Endpoint not found", [], [], kv⟩

/-- Specification-side reading of the subjectId extraction: the first non-empty
entry of the candidate list (container field, then message field, then
top-level field). -/
def firstNonEmptyTs : List (Option String) → Option String
  | [] => none
  | none :: rest => firstNonEmptyTs rest
  | some s :: rest => if s = "" then firstNonEmptyTs rest else some s

/-- The KV key consulted by the interactivity handler for a payload: `view:{id}`
for view interactions, `interaction:{ts}` for message interactions; `none` when
the handler could not extract a truthy identifier. -/
def subjectKeyOf (p : InteractionPayload) : Option String :=
  if p.type == some "view_submission" || p.type == some "view_closed" then
    match p.view.bind ViewRef.id with
    | some viewId => if viewId = "" then none else some ("view:" ++ viewId)
    | none => none
  else
    match extractMessageTs p with
    | some messageTs => if messageTs = "" then none else some ("interaction:" ++ messageTs)
    | none => none

/-- The body `type` tag used when dispatching a payload. -/
def dispatchTypeOf (p : InteractionPayload) : String :=
  if p.type == some "view_submission" || p.type == some "view_closed" then
    "slack_view_interaction"
  else "slack_interaction"

/-- Routing targets of an interactivity result: target block ids together with
the `originalEventId` carried in each dispatch body. -/
def interactionTargets (r : HIResult) : List (List String × String) :=
  r.dispatches.map (fun d => (d.blockIds, d.body.originalEventId))

/-- All block ids targeted by a list of fan-out sends, in order. -/
def dispatchedBlockIds (sends : List SentMessage) : List String :=
  (sends.map SentMessage.blockIds).flatten

/-- A `v0=`-prefixed string is never empty. -/
theorem v0_append_ne_empty (s : String) : ("v0=" ++ s) ≠ "" := by
  intro h
  have hlen := congrArg String.length h
  rw [String.length_append] at hlen
  have h3 : "v0=".length = 3 := rfl
  have h0 : "".length = 0 := rfl
  omega

/-- C2: for every inbound request whose timestamp header parses to a time more
than 300 seconds away from the current time of the verifier, `verifySlackRequest`
returns `false`, whatever the supplied signature (and whatever the HMAC
primitive computes). -/
theorem c2_verify_false_of_stale_timestamp (hmac : List Nat → List Nat → List Nat)
    (now : Int) (request : HTTPRequest) (signingSecret ts : String) (t : Int)
    (hts : request.timestampHeader = some ts)
    (hparse : parseIntJs ts = some t)
    (hstale : (now - t).natAbs > 300) :
    verifySlackRequest hmac now request signingSecret = false := by
  rcases hsig : request.signatureHeader with _ | sig
  · simp [verifySlackRequest, hts, hsig]
  · simp only [verifySlackRequest, hts, hsig]
    split
    · rfl
    · rw [hparse]
      simp [hstale]

/-- The computed signature string starts with `v0=` and is never empty. -/
theorem computeMySignature_ne_empty (hmac : List Nat → List Nat → List Nat)
    (signingSecret timestamp body : String) :
    computeMySignature hmac signingSecret timestamp body ≠ "" :=
  v0_append_ne_empty _

/-- C3: a request carrying exactly the computed `v0=<hex HMAC>` signature and a
fresh timestamp verifies; a second request identical except that the byte encoding of its supplied
signature differs from the computed one at some position `i`
(a flipped byte) fails verification. -/
theorem c3_verify_signature_exactness (hmac : List Nat → List Nat → List Nat)
    (now : Int) (req req' : HTTPRequest) (signingSecret ts sig' : String) (t : Int) (i : Nat)
    (hts : req.timestampHeader = some ts)
    (hsig : req.signatureHeader =
      some (computeMySignature hmac signingSecret ts req.rawBody))
    (hts' : req'.timestampHeader = some ts)
    (hsig' : req'.signatureHeader = some sig')
    (hbody : req'.rawBody = req.rawBody)
    (htsne : ts ≠ "")
    (hparse : parseIntJs ts = some t)
    (hfresh : (now - t).natAbs ≤ 300) :
    verifySlackRequest hmac now req signingSecret = true ∧
    ((encode sig').length =
        (encode (computeMySignature hmac signingSecret ts req.rawBody)).length →
      (encode sig').get? i ≠
        (encode (computeMySignature hmac signingSecret ts req.rawBody)).get? i →
      verifySlackRequest hmac now req' signingSecret = false) := by
  have h1 : (ts == "") = false := beq_eq_false_iff_ne.mpr htsne
  have h2 : (computeMySignature hmac signingSecret ts req.rawBody == "") = false :=
    beq_eq_false_iff_ne.mpr (computeMySignature_ne_empty hmac signingSecret ts req.rawBody)
  have h3 : ¬ ((now - t).natAbs > 300) := by omega
  constructor
  · simp only [verifySlackRequest, hts, hsig, h1, h2, Bool.or_self, Bool.or_false,
      Bool.false_or, if_false, hparse, h3, if_neg, verifySignatureCheck, timingSafeEqual,
      if_pos rfl]
    simp
  · intro hlen hdiff
    by_cases hemp : sig' = ""
    · subst hemp
      simp [verifySlackRequest, hts', hsig']
    · have h4 : (sig' == "") = false := beq_eq_false_iff_ne.mpr hemp
      simp only [verifySlackRequest, hts', hsig', hbody, h1, h4, Bool.or_false, if_false,
        hparse, h3, if_neg, verifySignatureCheck, timingSafeEqual]
      rw [if_pos hlen.symm]
      have hne : (encode (computeMySignature hmac signingSecret ts req.rawBody) ==
          encode sig') = false := by
        apply beq_eq_false_iff_ne.mpr
        intro hEq
        exact hdiff (by rw [hEq])
      simp [hne]

/-- C10: when the byte length of the supplied signature differs from that of
the computed one, the constant-time comparison inside `verifySlackRequest` throws
(`verifySignatureCheck` is an `Except.error`), the exception is caught, and
`verifySlackRequest` still returns `false` rather than propagating an error. -/
theorem c10_verify_catches_comparison_error (hmac : List Nat → List Nat → List Nat)
    (now : Int) (request : HTTPRequest) (signingSecret ts sig : String) (t : Int)
    (hts : request.timestampHeader = some ts)
    (hsig : request.signatureHeader = some sig)
    (htsne : ts ≠ "") (hsigne : sig ≠ "")
    (hparse : parseIntJs ts = some t)
    (hfresh : (now - t).natAbs ≤ 300)
    (hlen : (encode sig).length ≠
      (encode (computeMySignature hmac signingSecret ts request.rawBody)).length) :
    (∃ e, verifySignatureCheck hmac signingSecret ts request.rawBody sig =
      Except.error e) ∧
    verifySlackRequest hmac now request signingSecret = false := by
  have h1 : (ts == "") = false := beq_eq_false_iff_ne.mpr htsne
  have h4 : (sig == "") = false := beq_eq_false_iff_ne.mpr hsigne
  have h3 : ¬ ((now - t).natAbs > 300) := by omega
  have hcheck : verifySignatureCheck hmac signingSecret ts request.rawBody sig =
      Except.error "Input buffers must have the same byte length" := by
    simp only [verifySignatureCheck, timingSafeEqual]
    rw [if_neg (fun h => hlen h.symm)]
  refine ⟨⟨_, hcheck⟩, ?_⟩
  simp only [verifySlackRequest, hts, hsig, h1, h4, Bool.or_false, if_false, hparse,
    h3, if_neg, hcheck]
  simp

/-- The JS `a || b || c` chain agrees with "first non-empty wins" whenever the
latter finds a value, and that value is non-empty. -/
theorem jsOr_chain_eq_firstNonEmpty (a b c : Option String) (ts : String)
    (h : firstNonEmptyTs [a, b, c] = some ts) :
    jsOrS (jsOrS a b) c = some ts ∧ ts ≠ "" := by
  rcases a with _ | sa <;> rcases b with _ | sb <;> rcases c with _ | sc <;>
    simp only [firstNonEmptyTs, jsOrS, strTruthy] at h ⊢ <;>
    split_ifs at h ⊢ <;> simp_all [bne_iff_ne]

/-- The interactivity handler returns the KV store it was given: it performs
only `kv.app.get` reads, never a set or delete. -/
theorem handleInteractivity_kv_unchanged (p : InteractionPayload) (kv : KvStore) :
    (handleInteractivityEndpoint p kv).kv = kv := by
  unfold handleInteractivityEndpoint
  repeat first
  | rfl
  | split

/-- Normal form of the interactivity handler on the four known payload types:
look up the subject key, dispatch on a hit, do nothing on a miss, always 200. -/
theorem handleInteractivity_normalForm (p : InteractionPayload) (kv : KvStore)
    (hty : p.type = some "interactive_message" ∨ p.type = some "block_actions" ∨
      p.type = some "view_submission" ∨ p.type = some "view_closed") :
    handleInteractivityEndpoint p kv =
      match subjectKeyOf p with
      | some k =>
        match kv k with
        | some d => ⟨200, [⟨[d.blockId], ⟨dispatchTypeOf p, p, d.originalEventId⟩⟩], kv⟩
        | none => ⟨200, [], kv⟩
      | none => ⟨200, [], kv⟩ := by
  have hview : (p.type == some "view_submission" || p.type == some "view_closed") = true →
      (match p.view.bind ViewRef.id with
        | some viewId => if viewId == "" then (⟨200, [], kv⟩ : HIResult)
          else match kv ("view:" ++ viewId) with
            | some d => ⟨200, [⟨[d.blockId], ⟨"slack_view_interaction", p, d.originalEventId⟩⟩], kv⟩
            | none => ⟨200, [], kv⟩
        | none => ⟨200, [], kv⟩) =
      match subjectKeyOf p with
      | some k =>
        match kv k with
        | some d => ⟨200, [⟨[d.blockId], ⟨dispatchTypeOf p, p, d.originalEventId⟩⟩], kv⟩
        | none => ⟨200, [], kv⟩
      | none => ⟨200, [], kv⟩ := by
    intro hv
    simp only [subjectKeyOf, dispatchTypeOf, hv, if_pos]
    cases p.view.bind ViewRef.id with
    | none => rfl
    | some viewId =>
      by_cases he : viewId = "" <;>
        simp [he]
  have hmsg : (p.type == some "view_submission" || p.type == some "view_closed") = false →
      (match extractMessageTs p with
        | some messageTs => if messageTs == "" then (⟨200, [], kv⟩ : HIResult)
          else match kv ("interaction:" ++ messageTs) with
            | some d => ⟨200, [⟨[d.blockId], ⟨"slack_interaction", p, d.originalEventId⟩⟩], kv⟩
            | none => ⟨200, [], kv⟩
        | none => ⟨200, [], kv⟩) =
      match subjectKeyOf p with
      | some k =>
        match kv k with
        | some d => ⟨200, [⟨[d.blockId], ⟨dispatchTypeOf p, p, d.originalEventId⟩⟩], kv⟩
        | none => ⟨200, [], kv⟩
      | none => ⟨200, [], kv⟩ := by
    intro hv
    simp only [subjectKeyOf, dispatchTypeOf, hv, if_neg, Bool.false_eq_true, not_false_iff]
    cases extractMessageTs p with
    | none => rfl
    | some messageTs =>
      by_cases he : messageTs = "" <;>
        simp [he]
  rcases hty with h | h | h | h <;>
    simp only [handleInteractivityEndpoint, h] <;>
    first
    | exact hmsg (by simp [h])
    | exact hview (by simp [h])

/-- C1: for a `block_actions` or `interactive_message` callback the handler
takes as subjectId the first non-empty of `container.message_ts`, `message.ts`,
`message_ts`; a stored correlation record under that id is dispatched to
exactly the stored block carrying the stored originating event id; without a
record nothing is dispatched; the response is 200 either way. -/
theorem c1_message_interaction_routing (p : InteractionPayload) (kv : KvStore) (ts : String)
    (hty : p.type = some "block_actions" ∨ p.type = some "interactive_message")
    (hts : firstNonEmptyTs [p.container.bind Container.message_ts,
      p.message.bind MessageRef.ts, p.message_ts] = some ts) :
    (handleInteractivityEndpoint p kv).statusCode = 200 ∧
    (∀ v, kv ("interaction:" ++ ts) = some v →
      (handleInteractivityEndpoint p kv).dispatches =
        [⟨[v.blockId], ⟨"slack_interaction", p, v.originalEventId⟩⟩]) ∧
    (kv ("interaction:" ++ ts) = none →
      (handleInteractivityEndpoint p kv).dispatches = []) := by
  obtain ⟨hex, hne⟩ := jsOr_chain_eq_firstNonEmpty _ _ _ _ hts
  have hty' : p.type = some "interactive_message" ∨ p.type = some "block_actions" ∨
      p.type = some "view_submission" ∨ p.type = some "view_closed" := by
    rcases hty with h | h
    · exact Or.inr (Or.inl h)
    · exact Or.inl h
  have hnotview : (p.type == some "view_submission" || p.type == some "view_closed") = false := by
    rcases hty with h | h <;> simp [h]
  have hkey : subjectKeyOf p = some ("interaction:" ++ ts) := by
    simp only [subjectKeyOf, hnotview, Bool.false_eq_true, if_neg, not_false_iff,
      extractMessageTs, hex]
    simp [hne]
  have htype : dispatchTypeOf p = "slack_interaction" := by
    simp [dispatchTypeOf, hnotview]
  rw [handleInteractivity_normalForm p kv hty', hkey, htype]
  refine ⟨?_, ?_, ?_⟩
  · cases hkv : kv ("interaction:" ++ ts) <;> simp [hkv]
  · intro v hv
    simp [hv]
  · intro hv
    simp [hv]

/-- Witness for C1: a `block_actions` payload whose container timestamp is
`"T1"` is routed to the stored block `"B1"` carrying event id `"E1"`, while the
same payload re-anchored at the unknown `"T2"` dispatches nothing. -/
theorem c1_witness :
    (handleInteractivityEndpoint
      ⟨some "block_actions", some ⟨some "T1"⟩, none, none, none⟩
      (fun k => if k = "interaction:T1" then some ⟨"B1", "E1"⟩ else none)).dispatches =
      [⟨["B1"], ⟨"slack_interaction",
        ⟨some "block_actions", some ⟨some "T1"⟩, none, none, none⟩, "E1"⟩⟩] ∧
    (handleInteractivityEndpoint
      ⟨some "block_actions", some ⟨some "T2"⟩, none, none, none⟩
      (fun k => if k = "interaction:T1" then some ⟨"B1", "E1"⟩ else none)).dispatches = [] ∧
    (handleInteractivityEndpoint
      ⟨some "block_actions", some ⟨some "T2"⟩, none, none, none⟩
      (fun k => if k = "interaction:T1" then some ⟨"B1", "E1"⟩ else none)).statusCode = 200 := by
  refine ⟨?_, ?_, ?_⟩
  · exact (c1_message_interaction_routing
      ⟨some "block_actions", some ⟨some "T1"⟩, none, none, none⟩
      (fun k => if k = "interaction:T1" then some ⟨"B1", "E1"⟩ else none) "T1"
      (Or.inl rfl) (by decide)).2.1 ⟨"B1", "E1"⟩ (by decide)
  · exact (c1_message_interaction_routing
      ⟨some "block_actions", some ⟨some "T2"⟩, none, none, none⟩
      (fun k => if k = "interaction:T1" then some ⟨"B1", "E1"⟩ else none) "T2"
      (Or.inl rfl) (by decide)).2.2 (by decide)
  · exact (c1_message_interaction_routing
      ⟨some "block_actions", some ⟨some "T2"⟩, none, none, none⟩
      (fun k => if k = "interaction:T1" then some ⟨"B1", "E1"⟩ else none) "T2"
      (Or.inl rfl) (by decide)).1

/-- C9: the interactivity handler never writes to or deletes from the
correlation store (every run returns the store it was given), and consequently
two successive callbacks that consult the same subject key are routed to the
same block ids with the same originating event id. -/
theorem c9_correlation_store_frame :
    ∀ (p p₁ p₂ : InteractionPayload) (kv : KvStore),
      (handleInteractivityEndpoint p kv).kv = kv ∧
      ((p₁.type = some "interactive_message" ∨ p₁.type = some "block_actions" ∨
        p₁.type = some "view_submission" ∨ p₁.type = some "view_closed") →
       (p₂.type = some "interactive_message" ∨ p₂.type = some "block_actions" ∨
        p₂.type = some "view_submission" ∨ p₂.type = some "view_closed") →
       subjectKeyOf p₁ = subjectKeyOf p₂ →
       interactionTargets
         (handleInteractivityEndpoint p₂ (handleInteractivityEndpoint p₁ kv).kv) =
         interactionTargets (handleInteractivityEndpoint p₁ kv)) := by
  intro p p₁ p₂ kv
  refine ⟨handleInteractivity_kv_unchanged p kv, ?_⟩
  intro h₁ h₂ hk
  rw [handleInteractivity_kv_unchanged p₁ kv,
    handleInteractivity_normalForm p₁ kv h₁, handleInteractivity_normalForm p₂ kv h₂, ← hk]
  cases subjectKeyOf p₁ with
  | none => rfl
  | some k =>
    cases hkv : kv k <;> simp [interactionTargets, hkv]

/-- Witness for C9: a `block_actions` and an `interactive_message` callback both
anchored at `"T1"` are, run one after the other on the same store, routed to the
same block `"B1"` with the same event id `"E1"`, and the store is unchanged. -/
theorem c9_witness :
    (handleInteractivityEndpoint
      ⟨some "block_actions", some ⟨some "T1"⟩, none, none, none⟩
      (fun k => if k = "interaction:T1" then some ⟨"B1", "E1"⟩ else none)).kv =
      (fun k => if k = "interaction:T1" then some ⟨"B1", "E1"⟩ else none) ∧
    interactionTargets
      (handleInteractivityEndpoint
        ⟨some "interactive_message", none, some ⟨some "T1"⟩, none, none⟩
        (handleInteractivityEndpoint
          ⟨some "block_actions", some ⟨some "T1"⟩, none, none, none⟩
          (fun k => if k = "interaction:T1" then some ⟨"B1", "E1"⟩ else none)).kv) =
      interactionTargets
        (handleInteractivityEndpoint
          ⟨some "block_actions", some ⟨some "T1"⟩, none, none, none⟩
          (fun k => if k = "interaction:T1" then some ⟨"B1", "E1"⟩ else none)) := by
  have h := c9_correlation_store_frame
    ⟨some "block_actions", some ⟨some "T1"⟩, none, none, none⟩
    ⟨some "block_actions", some ⟨some "T1"⟩, none, none, none⟩
    ⟨some "interactive_message", none, some ⟨some "T1"⟩, none, none⟩
    (fun k => if k = "interaction:T1" then some ⟨"B1", "E1"⟩ else none)
  exact ⟨h.1, h.2 (Or.inr (Or.inl rfl)) (Or.inl rfl) (by decide)⟩

/-- Witness for C2: with current time 2000 and timestamp header `"1000"`, the
window is exceeded and verification fails. -/
theorem c2_witness :
    parseIntJs "1000" = some 1000 ∧
    ((2000 : Int) - 1000).natAbs > 300 ∧
    verifySlackRequest (fun _ _ => []) 2000
      ⟨some "1000", some "v0=", "", "/events", ⟨none, none, none⟩, none⟩ "secret" = false :=
  ⟨by decide, by decide,
    c2_verify_false_of_stale_timestamp (fun _ _ => []) 2000
      ⟨some "1000", some "v0=", "", "/events", ⟨none, none, none⟩, none⟩
      "secret" "1000" 1000 rfl (by decide) (by decide)⟩

/-- Witness for C3: with the trivial HMAC the computed signature is `"v0="`;
supplying it verifies, and flipping its third byte (to `"v0?"`) fails. -/
theorem c3_witness :
    verifySlackRequest (fun _ _ => []) 0
      ⟨some "0", some "v0=", "", "/events", ⟨none, none, none⟩, none⟩ "secret" = true ∧
    verifySlackRequest (fun _ _ => []) 0
      ⟨some "0", some "v0?", "", "/events", ⟨none, none, none⟩, none⟩ "secret" = false := by
  have h := c3_verify_signature_exactness (fun _ _ => []) 0
    ⟨some "0", some "v0=", "", "/events", ⟨none, none, none⟩, none⟩
    ⟨some "0", some "v0?", "", "/events", ⟨none, none, none⟩, none⟩
    "secret" "0" "v0?" 0 2 rfl (by decide) rfl rfl rfl (by decide) (by decide) (by decide)
  exact ⟨h.1, h.2 (by decide) (by decide)⟩

/-- Witness for C10: a supplied signature one byte longer than the computed one
makes the comparison throw, and verification still returns `false`. -/
theorem c10_witness :
    (∃ e, verifySignatureCheck (fun _ _ => []) "secret" "0" "" "v0=0" = Except.error e) ∧
    verifySlackRequest (fun _ _ => []) 0
      ⟨some "0", some "v0=0", "", "/events", ⟨none, none, none⟩, none⟩ "secret" = false :=
  c10_verify_catches_comparison_error (fun _ _ => []) 0
    ⟨some "0", some "v0=0", "", "/events", ⟨none, none, none⟩, none⟩
    "secret" "0" "v0=0" 0 rfl rfl (by decide) (by decide) (by decide) (by decide) (by decide)

/-- C4: a verified message event on channel `ch` fans out to exactly the
configured message-subscribing blocks whose channel filter is absent (falsy) or
equals `ch`. -/
theorem c4_message_fanout_filter (registry : List BlockInfo) (event : SlackEvent) (ch : String)
    (hty : event.type = some "message") (hch : event.channel = some ch) :
    dispatchedBlockIds (handleEventSubscriptions registry event) =
      ((registry.filter
          (fun b => ["messagesSubscription", "conversation", "botThread"].contains b.typeId)).filter
        (fun b => !(strTruthy b.channelId) || b.channelId == some ch)).map BlockInfo.id := by
  have h1 : (some "message" == some "app_mention") = false := by decide
  have h2 : (some "message" == some "reaction_added") = false := by decide
  have h3 : (some "message" == some "reaction_removed") = false := by decide
  have h4 : (some "message" == some "message") = true := by decide
  simp only [handleEventSubscriptions, hty, hch, h1, h2, h3, h4, Bool.or_self,
    Bool.false_eq_true, if_false, if_true]
  split
  · simp [dispatchedBlockIds]
  · next hlen =>
    have h0 := List.length_eq_zero.mp (Nat.eq_zero_of_not_pos hlen)
    rw [h0]
    simp [dispatchedBlockIds]

/-- Witness for C4: three message subscribers filtered on `"C1"`, `"C2"` and
unfiltered; a message on `"C1"` goes to exactly the first and the third. -/
theorem c4_witness :
    dispatchedBlockIds (handleEventSubscriptions
      [⟨"B1", "messagesSubscription", some "C1", none⟩,
       ⟨"B2", "messagesSubscription", some "C2", none⟩,
       ⟨"B3", "messagesSubscription", none, none⟩]
      ⟨some "message", some "C1", none⟩) =
      ((([⟨"B1", "messagesSubscription", some "C1", none⟩,
          ⟨"B2", "messagesSubscription", some "C2", none⟩,
          ⟨"B3", "messagesSubscription", none, none⟩] : List BlockInfo).filter
          (fun b => ["messagesSubscription", "conversation", "botThread"].contains b.typeId)).filter
        (fun b => !(strTruthy b.channelId) || b.channelId == some "C1")).map BlockInfo.id ∧
    ((([⟨"B1", "messagesSubscription", some "C1", none⟩,
        ⟨"B2", "messagesSubscription", some "C2", none⟩,
        ⟨"B3", "messagesSubscription", none, none⟩] : List BlockInfo).filter
        (fun b => ["messagesSubscription", "conversation", "botThread"].contains b.typeId)).filter
      (fun b => !(strTruthy b.channelId) || b.channelId == some "C1")).map BlockInfo.id =
      ["B1", "B3"] :=
  ⟨c4_message_fanout_filter _ _ "C1" rfl rfl, by decide⟩

/-- C5: a message event from the own user of the app is not emitted by a message
subscriber whose `includeOwnMessages` is falsy, and is emitted by a matching
subscriber whose `includeOwnMessages` is `true`. -/
theorem c5_own_message_filter (appUserId blockChannelId : Option String)
    (includeOwnMessages : Option Bool) (ev : SlackEvent) (u : String)
    (hty : ev.type = some "message") (hu : ev.user = some u) (hbot : appUserId = some u) :
    (optBoolTruthy includeOwnMessages = false →
      messagesSubscription_onInternalMessage appUserId blockChannelId includeOwnMessages
        (some ev) = none) ∧
    (includeOwnMessages = some true →
      (strTruthy blockChannelId = true → ev.channel = blockChannelId) →
      messagesSubscription_onInternalMessage appUserId blockChannelId includeOwnMessages
        (some ev) = some ev) := by
  have hself : (appUserId == ev.user) = true := by
    rw [hu, hbot]
    simp
  constructor
  · intro hinc
    simp only [messagesSubscription_onInternalMessage, hty]
    by_cases hc : (strTruthy blockChannelId && !(ev.channel == blockChannelId)) = true
    · simp [hc]
    · simp only [Bool.not_eq_true] at hc
      simp [hc, hself, hinc]
  · intro hinc hchan
    simp only [messagesSubscription_onInternalMessage, hty, hinc]
    have hc : (strTruthy blockChannelId && !(ev.channel == blockChannelId)) = false := by
      by_cases hbc : strTruthy blockChannelId = true
      · have := hchan hbc
        simp [hbc, this]
      · simp only [Bool.not_eq_true] at hbc
        simp [hbc]
    simp [hc, optBoolTruthy]

/-- Witness for C5: a message from user `"U1"` with bot identity `"U1"` is
dropped when `includeOwnMessages` is unset and emitted when it is `true`. -/
theorem c5_witness :
    messagesSubscription_onInternalMessage (some "U1") none none
      (some ⟨some "message", some "C1", some "U1"⟩) = none ∧
    messagesSubscription_onInternalMessage (some "U1") (some "C1") (some true)
      (some ⟨some "message", some "C1", some "U1"⟩) =
      some ⟨some "message", some "C1", some "U1"⟩ := by
  constructor
  · exact (c5_own_message_filter (some "U1") none none
      ⟨some "message", some "C1", some "U1"⟩ "U1" rfl rfl rfl).1 (by decide)
  · exact (c5_own_message_filter (some "U1") (some "C1") (some true)
      ⟨some "message", some "C1", some "U1"⟩ "U1" rfl rfl rfl).2 rfl (by decide)

/-- C6: a verified request to the events endpoint carrying a
`url_verification` payload is answered 200 with the raw challenge string as
the body, and nothing is dispatched. -/
theorem c6_url_verification_echo (hmac : List Nat → List Nat → List Nat) (now : Int)
    (cfg : AppConfig) (registry : List BlockInfo) (kv : KvStore) (request : HTTPRequest)
    (c : String)
    (hsec : strTruthy cfg.slackSigningSecret = true)
    (hver : verifySlackRequest hmac now request (cfg.slackSigningSecret.getD "") = true)
    (hpath : (request.path == "/events" || request.path.endsWith "/events") = true)
    (hty : request.eventsBody.type = some "url_verification")
    (hch : request.eventsBody.challenge = some c) :
    app_http_onRequest hmac now cfg registry kv request =
      Except.ok ⟨200, RespBody.text c, [], [], kv⟩ := by
  have h1 : (some "url_verification" == some "url_verification") = true := by decide
  simp only [app_http_onRequest, hsec, hver, hpath, Bool.not_true, Bool.false_eq_true,
    if_false, if_true, handleEventsEndpoint, hty, hch, h1]

/-- Witness for C6: challenge `"abc123"` is echoed verbatim with status 200 and
empty dispatch lists. -/
theorem c6_witness :
    app_http_onRequest (fun _ _ => []) 0 ⟨some "secret"⟩ []
      (fun _ => none)
      ⟨some "0", some "v0=", "", "/events",
        ⟨some "url_verification", some "abc123", none⟩, none⟩ =
      Except.ok ⟨200, RespBody.text "abc123", [], [], fun _ => none⟩ :=
  c6_url_verification_echo (fun _ _ => []) 0 ⟨some "secret"⟩ [] (fun _ => none)
    ⟨some "0", some "v0=", "", "/events",
      ⟨some "url_verification", some "abc123", none⟩, none⟩
    "abc123" (by decide) (by decide) (by decide) rfl rfl

/-- C7: a falsy signing secret yields 500 with a JSON error body whatever the
rest of the request or the HMAC primitive (verification is never consulted);
with a secret present, failed verification yields 403 with a JSON error body
and no dispatch; a verified request on an unknown path yields 404. -/
theorem c7_http_error_paths (hmac : List Nat → List Nat → List Nat) (now : Int)
    (cfg : AppConfig) (registry : List BlockInfo) (kv : KvStore) (request : HTTPRequest) :
    (strTruthy cfg.slackSigningSecret = false →
      app_http_onRequest hmac now cfg registry kv request =
        Except.ok ⟨500, RespBody.errorJson "App not configured: Missing Signing Secret",
          [], [], kv⟩) ∧
    (strTruthy cfg.slackSigningSecret = true →
      verifySlackRequest hmac now request (cfg.slackSigningSecret.getD "") = false →
      app_http_onRequest hmac now cfg registry kv request =
        Except.ok ⟨403, RespBody.errorJson "Invalid Slack signature", [], [], kv⟩) ∧
    (strTruthy cfg.slackSigningSecret = true →
      verifySlackRequest hmac now request (cfg.slackSigningSecret.getD "") = true →
      (request.path == "/events" || request.path.endsWith "/events") = false →
      (request.path == "/interactivity" || request.path.endsWith "/interactivity") = false →
      app_http_onRequest hmac now cfg registry kv request =
        Except.ok ⟨404, RespBody.errorJson "Endpoint not found", [], [], kv⟩) := by
  refine ⟨?_, ?_, ?_⟩
  · intro hsec
    simp [app_http_onRequest, hsec]
  · intro hsec hver
    simp [app_http_onRequest, hsec, hver]
  · intro hsec hver hpe hpi
    simp [app_http_onRequest, hsec, hver, hpe, hpi]

/-- Witness for C7: a missing secret gives 500, a wrong signature gives 403,
and a verified request on path `"/x"` gives 404. -/
theorem c7_witness :
    app_http_onRequest (fun _ _ => []) 0 ⟨none⟩ [] (fun _ => none)
      ⟨some "0", some "v0=", "", "/events", ⟨none, none, none⟩, none⟩ =
      Except.ok ⟨500, RespBody.errorJson "App not configured: Missing Signing Secret",
        [], [], fun _ => none⟩ ∧
    app_http_onRequest (fun _ _ => []) 0 ⟨some "secret"⟩ [] (fun _ => none)
      ⟨some "0", some "bad", "", "/events", ⟨none, none, none⟩, none⟩ =
      Except.ok ⟨403, RespBody.errorJson "Invalid Slack signature", [], [], fun _ => none⟩ ∧
    app_http_onRequest (fun _ _ => []) 0 ⟨some "secret"⟩ [] (fun _ => none)
      ⟨some "0", some "v0=", "", "/x", ⟨none, none, none⟩, none⟩ =
      Except.ok ⟨404, RespBody.errorJson "Endpoint not found", [], [], fun _ => none⟩ :=
  ⟨(c7_http_error_paths (fun _ _ => []) 0 ⟨none⟩ [] (fun _ => none)
      ⟨some "0", some "v0=", "", "/events", ⟨none, none, none⟩, none⟩).1 (by decide),
   (c7_http_error_paths (fun _ _ => []) 0 ⟨some "secret"⟩ [] (fun _ => none)
      ⟨some "0", some "bad", "", "/events", ⟨none, none, none⟩, none⟩).2.1
     (by decide) (by decide),
   (c7_http_error_paths (fun _ _ => []) 0 ⟨some "secret"⟩ [] (fun _ => none)
      ⟨some "0", some "v0=", "", "/x", ⟨none, none, none⟩, none⟩).2.2
     (by decide) (by decide) (by decide) (by decide)⟩

/-- C8: a verified request to either endpoint whose payload type matches no
known discriminant is answered 200 with nothing dispatched and no error
raised. -/
theorem c8_unknown_discriminant_no_action (hmac : List Nat → List Nat → List Nat)
    (now : Int) (cfg : AppConfig) (registry : List BlockInfo) (kv : KvStore)
    (request : HTTPRequest) (p : InteractionPayload)
    (hsec : strTruthy cfg.slackSigningSecret = true)
    (hver : verifySlackRequest hmac now request (cfg.slackSigningSecret.getD "") = true) :
    ((request.path == "/events" || request.path.endsWith "/events") = true →
      request.eventsBody.type ≠ some "url_verification" →
      request.eventsBody.type ≠ some "event_callback" →
      app_http_onRequest hmac now cfg registry kv request =
        Except.ok ⟨200, RespBody.empty, [], [], kv⟩) ∧
    ((request.path == "/events" || request.path.endsWith "/events") = false →
      (request.path == "/interactivity" || request.path.endsWith "/interactivity") = true →
      request.interactivityPayload = some p →
      p.type ≠ some "interactive_message" →
      p.type ≠ some "block_actions" →
      p.type ≠ some "view_submission" →
      p.type ≠ some "view_closed" →
      app_http_onRequest hmac now cfg registry kv request =
        Except.ok ⟨200, RespBody.empty, [], [], kv⟩) := by
  constructor
  · intro hpath hty1 hty2
    have h1 : (request.eventsBody.type == some "url_verification") = false :=
      beq_eq_false_iff_ne.mpr hty1
    have h2 : (request.eventsBody.type == some "event_callback") = false :=
      beq_eq_false_iff_ne.mpr hty2
    simp [app_http_onRequest, hsec, hver, hpath, handleEventsEndpoint, h1, h2]
  · intro hpe hpi hpay hty1 hty2 hty3 hty4
    have h1 : (p.type == some "interactive_message") = false := beq_eq_false_iff_ne.mpr hty1
    have h2 : (p.type == some "block_actions") = false := beq_eq_false_iff_ne.mpr hty2
    have h3 : (p.type == some "view_submission") = false := beq_eq_false_iff_ne.mpr hty3
    have h4 : (p.type == some "view_closed") = false := beq_eq_false_iff_ne.mpr hty4
    simp [app_http_onRequest, hsec, hver, hpe, hpi, hpay,
      handleInteractivityEndpoint, h1, h2, h3, h4]

/-- The interactivity path does not end with `/events` (needed because the
events route is checked first). -/
theorem interactivity_not_endsWith_events :
    ("/interactivity".endsWith "/events") = false := by
  simp only [String.endsWith]
  show Substring.beq _ _ = false
  rw [Substring.beq]
  rw [String.substrEq]
  rw [String.substrEq.loop.eq_def]
  simp
  intro _ _ _
  constructor
  · decide
  · intro h
    exact absurd h (by decide)

/-- Witness for C8: an unknown `"some_new_type"` payload on `/events` and an
unknown `"unknown"` payload on `/interactivity` both produce a bare 200 with
no dispatch. -/
theorem c8_witness :
    app_http_onRequest (fun _ _ => []) 0 ⟨some "secret"⟩ [] (fun _ => none)
      ⟨some "0", some "v0=", "", "/events", ⟨some "some_new_type", none, none⟩, none⟩ =
      Except.ok ⟨200, RespBody.empty, [], [], fun _ => none⟩ ∧
    app_http_onRequest (fun _ _ => []) 0 ⟨some "secret"⟩ [] (fun _ => none)
      ⟨some "0", some "v0=", "", "/interactivity", ⟨none, none, none⟩,
        some ⟨some "unknown", none, none, none, none⟩⟩ =
      Except.ok ⟨200, RespBody.empty, [], [], fun _ => none⟩ :=
  ⟨(c8_unknown_discriminant_no_action (fun _ _ => []) 0 ⟨some "secret"⟩ [] (fun _ => none)
      ⟨some "0", some "v0=", "", "/events", ⟨some "some_new_type", none, none⟩, none⟩
      ⟨some "unknown", none, none, none, none⟩ (by decide) (by decide)).1
      (by decide) (by decide) (by decide),
   (c8_unknown_discriminant_no_action (fun _ _ => []) 0 ⟨some "secret"⟩ [] (fun _ => none)
      ⟨some "0", some "v0=", "", "/interactivity", ⟨none, none, none⟩,
        some ⟨some "unknown", none, none, none, none⟩⟩
      ⟨some "unknown", none, none, none, none⟩ (by decide) (by decide)).2
      (by rw [show ("/interactivity" == "/events") = false from by decide];
          rw [interactivity_not_endsWith_events]; rfl)
      (by decide) rfl (by decide) (by decide) (by decide) (by decide)⟩

end SlackApp
